import Mathlib

/-!
Verification of the GPU texture-resource cache and deferred draw-command
pipeline of calico-doom (`src/gl/gl_render.cpp`).

The C++ code is shallowly embedded: pure pixel conversions become Lean
functions on `Nat`-valued byte/pixel maps; the stateful resource hive,
texture resources and the two draw-command queues become explicit state
passing over Lean structures.  C `unsigned int` arithmetic is modelled on
`Nat` with `% 2 ^ 32` where a product can overflow; C `byte` loads and
int-to-byte conversions are modelled with `% 256` (on `Int`, `% 256` is
`Int.emod`, whose result lies in `[0, 256)`, matching the C conversion to
`unsigned char`).  Fallible allocations (`new (std::nothrow)`) are modelled
by explicit `Bool` success flags and `Option` results.

External collaborators that are not part of this repository's sources
(`ResourceHive` from resource.h, `BDList` from elib/bdlist.h, `rbTexture`
from rb/rb_texture.h, the GL drawing calls themselves) are modelled from
the specification, as noted on each such definition.
-/

namespace GLRender

/-- A 32-bit cell of a CPU pixel buffer: `none` models an allocated but
never-written (indeterminate) cell, `some v` a cell whose last written
value is `v`.  (`new uint32_t[n]` does not zero-initialize.) -/
abbrev Cell := Option Nat

/-- Pixel buffer produced by `GL_8bppTo32bpp` when allocation succeeds
(gl_render.cpp:190-202): for each `p < w * h`,
`buffer[p] = src[p] ? CRYToRGB[palette8[src[p]]] : 0`.
`src p % 256` models the `byte` load `src[p]`; `CRYToRGB` and `palette8`
are the external lookup tables, taken as arbitrary functions. -/
def eightBuf (CRYToRGB palette8 src : Nat → Nat) (w h : Nat) : List Cell :=
  (List.range (w * h % 2 ^ 32)).map fun p =>
    some (if src p % 256 = 0 then 0 else CRYToRGB (palette8 (src p % 256)))

/-- `GL_8bppTo32bpp(data, w, h)` (gl_render.cpp:190-202).  `alloc` models
whether `new (std::nothrow) uint32_t[w*h]` succeeds; on failure the null
buffer is returned. -/
def GL_8bppTo32bpp (alloc : Bool) (CRYToRGB palette8 src : Nat → Nat)
    (w h : Nat) : Option (List Cell) :=
  if alloc then some (eightBuf CRYToRGB palette8 src w h) else none

/-- One nibble of `GL_8bppPackedTo32bpp` (gl_render.cpp:218-223):
`pix = (byte)((palshift << 1) + nib)`, then
`pix ? CRYToRGB[palette8[pix]] : 0`.  The int-to-`byte` store of `pix`
is the `% 256`. -/
def packedPix (CRYToRGB palette8 : Nat → Nat) (palshift : Int) (nib : Nat) :
    Nat :=
  let pix := ((2 * palshift + (nib : Int)) % 256).toNat
  if pix = 0 then 0 else CRYToRGB (palette8 pix)

/-- The loop of `GL_8bppPackedTo32bpp` (gl_render.cpp:216-224): iteration
`p` reads byte `src[p]`, splits it into high and low nibble, and writes
`buffer[p*2]` and `buffer[p*2+1]`. -/
def packedLoop (CRYToRGB palette8 src : Nat → Nat) (palshift : Int) :
    Nat → List Cell → List Cell
  | 0, buf => buf
  | p + 1, buf =>
    let buf' := packedLoop CRYToRGB palette8 src palshift p buf
    (buf'.set (p * 2)
        (some (packedPix CRYToRGB palette8 palshift (src p % 256 / 16)))).set
      (p * 2 + 1)
      (some (packedPix CRYToRGB palette8 palshift (src p % 256 % 16)))

/-- Pixel buffer produced by `GL_8bppPackedTo32bpp` when allocation
succeeds (gl_render.cpp:207-228): a `w*h`-cell buffer, initially
unwritten, filled by `w*h / 2` loop iterations (unsigned arithmetic). -/
def packedBuf (CRYToRGB palette8 src : Nat → Nat) (w h : Nat)
    (palshift : Int) : List Cell :=
  packedLoop CRYToRGB palette8 src palshift (w * h % 2 ^ 32 / 2)
    (List.replicate (w * h % 2 ^ 32) none)

/-- `GL_8bppPackedTo32bpp(data, w, h, palshift)` (gl_render.cpp:207-228).
`alloc` models whether `new (std::nothrow) uint32_t[w*h]` succeeds. -/
def GL_8bppPackedTo32bpp (alloc : Bool) (CRYToRGB palette8 src : Nat → Nat)
    (w h : Nat) (palshift : Int) : Option (List Cell) :=
  if alloc then some (packedBuf CRYToRGB palette8 src w h palshift) else none

/-- The nibble of the packed source that iteration of the loop writes to
output index `i`: the high nibble of byte `i / 2` for even `i`, the low
nibble for odd `i`. -/
def nibbleAt (src : Nat → Nat) (i : Nat) : Nat :=
  if i % 2 = 0 then src (i / 2) % 256 / 16 else src (i / 2) % 256 % 16

theorem packedLoop_length (CRYToRGB palette8 src : Nat → Nat) (palshift : Int)
    (p : Nat) (buf : List Cell) :
    (packedLoop CRYToRGB palette8 src palshift p buf).length = buf.length := by
  induction p with
  | zero => rfl
  | succ p ih =>
    simp only [packedLoop, List.length_set]
    exact ih

theorem packedLoop_getElem? (CRYToRGB palette8 src : Nat → Nat)
    (palshift : Int) (p : Nat) (buf : List Cell) (hlen : p * 2 ≤ buf.length)
    (i : Nat) :
    (packedLoop CRYToRGB palette8 src palshift p buf)[i]? =
      if i < p * 2 then
        some (some (packedPix CRYToRGB palette8 palshift (nibbleAt src i)))
      else buf[i]? := by
  induction p with
  | zero => simp [packedLoop]
  | succ p ih =>
    have hp : p * 2 ≤ buf.length := by omega
    have hXlen : (packedLoop CRYToRGB palette8 src palshift p buf).length
        = buf.length := packedLoop_length ..
    simp only [packedLoop]
    rcases Nat.lt_trichotomy i (p * 2) with hi | hi | hi
    · rw [List.getElem?_set_ne (by omega), List.getElem?_set_ne (by omega),
        ih hp]
      simp only [hi, if_pos, if_pos (by omega : i < (p + 1) * 2)]
    · subst hi
      rw [List.getElem?_set_ne (by omega),
        List.getElem?_set_self (by rw [hXlen]; omega)]
      have hnib : nibbleAt src (p * 2) = src p % 256 / 16 := by
        have h1 : p * 2 % 2 = 0 := by omega
        have h2 : p * 2 / 2 = p := by omega
        simp [nibbleAt, h1, h2]
      rw [if_pos (by omega : p * 2 < (p + 1) * 2), hnib]
    · rcases Nat.lt_or_ge i (p * 2 + 2) with hi2 | hi2
      · have : i = p * 2 + 1 := by omega
        subst this
        rw [List.getElem?_set_self (by rw [List.length_set, hXlen]; omega)]
        have hnib : nibbleAt src (p * 2 + 1) = src p % 256 % 16 := by
          have h1 : (p * 2 + 1) % 2 = 1 := by omega
          have h2 : (p * 2 + 1) / 2 = p := by omega
          simp [nibbleAt, h1, h2]
        rw [if_pos (by omega : p * 2 + 1 < (p + 1) * 2), hnib]
      · rw [List.getElem?_set_ne (by omega), List.getElem?_set_ne (by omega),
          ih hp]
        rw [if_neg (by omega), if_neg (by omega)]

theorem packedBuf_getElem? (CRYToRGB palette8 src : Nat → Nat)
    (palshift : Int) (w h : Nat) (i : Nat) :
    (packedBuf CRYToRGB palette8 src w h palshift)[i]? =
      if i < w * h % 2 ^ 32 / 2 * 2 then
        some (some (packedPix CRYToRGB palette8 palshift (nibbleAt src i)))
      else if i < w * h % 2 ^ 32 then some none
      else none := by
  unfold packedBuf
  rw [packedLoop_getElem? _ _ _ _ _ _ (by simp [List.length_replicate]; omega)]
  rcases Nat.lt_or_ge i (w * h % 2 ^ 32 / 2 * 2) with hi | hi
  · rw [if_pos hi, if_pos hi]
  · rw [if_neg (by omega), if_neg (by omega), List.getElem?_replicate]

theorem packedBuf_length (CRYToRGB palette8 src : Nat → Nat) (palshift : Int)
    (w h : Nat) :
    (packedBuf CRYToRGB palette8 src w h palshift).length = w * h % 2 ^ 32 := by
  unfold packedBuf
  rw [packedLoop_length, List.length_replicate]

/-- C7: for the Encoding A (8-bit) conversion, each output pixel `p` is 0
when source byte `p` is 0, and equals `CRYToRGB[palette8[i]]` when source
byte `p` is `i ≠ 0`; the output buffer has exactly `w * h` pixels. -/
theorem c7_eightbit_conversion_spec (CRYToRGB palette8 src : Nat → Nat)
    (w h : Nat) (hwh : w * h < 2 ^ 32) :
    GL_8bppTo32bpp true CRYToRGB palette8 src w h
        = some (eightBuf CRYToRGB palette8 src w h)
    ∧ (eightBuf CRYToRGB palette8 src w h).length = w * h
    ∧ ∀ p, p < w * h →
        (src p % 256 = 0 →
          (eightBuf CRYToRGB palette8 src w h)[p]? = some (some 0))
        ∧ (src p % 256 ≠ 0 →
          (eightBuf CRYToRGB palette8 src w h)[p]?
            = some (some (CRYToRGB (palette8 (src p % 256))))) := by
  refine ⟨rfl, ?_, ?_⟩
  · simp only [eightBuf, List.length_map, List.length_range]
    omega
  · intro p hp
    have hcell : (eightBuf CRYToRGB palette8 src w h)[p]?
        = some (some (if src p % 256 = 0 then 0
            else CRYToRGB (palette8 (src p % 256)))) := by
      rw [eightBuf, List.getElem?_map,
        List.getElem?_range (by rw [Nat.mod_eq_of_lt hwh]; exact hp)]
      rfl
    constructor
    · intro h0; rw [hcell, if_pos h0]
    · intro h0; rw [hcell, if_neg h0]

/-- Witness for C7 at a concrete input: byte 0 maps to pixel 0 and byte 1
maps through the palette and LUT. -/
theorem c7_witness :
    (eightBuf (fun c => c + 10) (fun i => i + 1) (fun p => p) 2 1)[0]?
        = some (some 0)
    ∧ (eightBuf (fun c => c + 10) (fun i => i + 1) (fun p => p) 2 1)[1]?
        = some (some 12) := by
  have h := c7_eightbit_conversion_spec (fun c => c + 10) (fun i => i + 1)
    (fun p => p) 2 1 (by decide)
  exact ⟨(h.2.2 0 (by decide)).1 (by decide),
    (h.2.2 1 (by decide)).2 (by decide)⟩

/-- C9: the Encoding B conversion writes exactly the output cells with
index below `2 * (w*h / 2)` — each written cell holding the pixel of the
corresponding nibble (high nibble of byte `i/2` at even `i`, low nibble
at odd `i`) — and when `w * h` is odd the last cell of the `w*h`-cell
output buffer is never written. -/
theorem c9_packed_written_extent (CRYToRGB palette8 src : Nat → Nat)
    (w h : Nat) (palshift : Int) (hwh : w * h < 2 ^ 32) :
    GL_8bppPackedTo32bpp true CRYToRGB palette8 src w h palshift
        = some (packedBuf CRYToRGB palette8 src w h palshift)
    ∧ (packedBuf CRYToRGB palette8 src w h palshift).length = w * h
    ∧ (∀ i, i < w * h →
        ((∃ v, (packedBuf CRYToRGB palette8 src w h palshift)[i]?
            = some (some v)) ↔ i < w * h / 2 * 2))
    ∧ (∀ i, i < w * h / 2 * 2 →
        (packedBuf CRYToRGB palette8 src w h palshift)[i]?
          = some (some (packedPix CRYToRGB palette8 palshift (nibbleAt src i))))
    ∧ (w * h % 2 = 1 →
        (packedBuf CRYToRGB palette8 src w h palshift)[w * h - 1]?
          = some none) := by
  have hmod : w * h % 2 ^ 32 = w * h := Nat.mod_eq_of_lt hwh
  have hcell := packedBuf_getElem? CRYToRGB palette8 src palshift w h
  rw [hmod] at hcell
  have hhalf : w * h / 2 * 2 ≤ w * h := by omega
  refine ⟨rfl, ?_, ?_, ?_, ?_⟩
  · rw [packedBuf_length, hmod]
  · intro i hi
    constructor
    · rintro ⟨v, hv⟩
      by_contra hge
      rw [hcell i, if_neg hge, if_pos hi] at hv
      exact Option.noConfusion (Option.some.inj hv)
    · intro hlt
      exact ⟨_, by rw [hcell i, if_pos hlt]⟩
  · intro i hlt
    rw [hcell i, if_pos hlt]
  · intro hodd
    have h1 : ¬ (w * h - 1 < w * h / 2 * 2) := by omega
    have h2 : w * h - 1 < w * h := by omega
    rw [hcell _, if_neg h1, if_pos h2]

/-- Witness for C9 at a concrete odd-sized input (w = 3, h = 1): cells 0
and 1 are written, cell 2 is allocated but never written. -/
theorem c9_witness :
    (∃ v, (packedBuf (fun c => c) (fun i => i) (fun _ => 0) 3 1 0)[0]?
        = some (some v))
    ∧ (packedBuf (fun c => c) (fun i => i) (fun _ => 0) 3 1 0)[2]?
        = some none := by
  have h := c9_packed_written_extent (fun c => c) (fun i => i) (fun _ => 0)
    3 1 0 (by decide)
  exact ⟨(h.2.2.1 0 (by decide)).2 (by decide), h.2.2.2.2 (by decide)⟩

/-- C1 counterexample: with palette shift 1 the source byte 0 — both of
whose nibbles are 0 — does not produce output pixel 0: the zero test of
GL_8bppPackedTo32bpp is applied to the biased index `(1 << 1) + 0 = 2`,
so with the identity palette and the LUT `c ↦ c + 1` the first output
pixel is `CRYToRGB[palette8[2]] = 3`, not 0. -/
theorem c1_counterexample :
    ¬ ((GL_8bppPackedTo32bpp true (fun c => c + 1) (fun i => i) (fun _ => 0)
          2 1 1).map (fun buf => buf[0]?) = some (some (some 0))) := by
  decide

/-- C1 (amended): for the Encoding B conversion with palette shift 0,
every source nibble equal to 0 produces the output pixel value 0,
regardless of the palette table and the LUT contents.  (For a nonzero
shift `s` the zero test applies to the biased index `2*s + nibble`, so a
zero nibble instead yields `LUT[Palette[(2*s) mod 256]]`.) -/
theorem c1_amended_zero_nibble_transparent_at_shift_zero
    (CRYToRGB palette8 src : Nat → Nat) (w h : Nat) (hwh : w * h < 2 ^ 32)
    (p : Nat) (hp : p < w * h / 2) :
    GL_8bppPackedTo32bpp true CRYToRGB palette8 src w h 0
        = some (packedBuf CRYToRGB palette8 src w h 0)
    ∧ (src p % 256 / 16 = 0 →
        (packedBuf CRYToRGB palette8 src w h 0)[p * 2]? = some (some 0))
    ∧ (src p % 256 % 16 = 0 →
        (packedBuf CRYToRGB palette8 src w h 0)[p * 2 + 1]?
          = some (some 0)) := by
  have hmod : w * h % 2 ^ 32 = w * h := Nat.mod_eq_of_lt hwh
  have hcell := packedBuf_getElem? CRYToRGB palette8 src 0 w h
  rw [hmod] at hcell
  have hpix0 : packedPix CRYToRGB palette8 0 0 = 0 := by
    simp [packedPix]
  refine ⟨rfl, ?_, ?_⟩
  · intro h0
    have hnib : nibbleAt src (p * 2) = 0 := by
      have h1 : p * 2 % 2 = 0 := by omega
      have h2 : p * 2 / 2 = p := by omega
      simp [nibbleAt, h1, h2, h0]
    rw [hcell _, if_pos (by omega), hnib, hpix0]
  · intro h0
    have hnib : nibbleAt src (p * 2 + 1) = 0 := by
      have h1 : (p * 2 + 1) % 2 = 1 := by omega
      have h2 : (p * 2 + 1) / 2 = p := by omega
      simp [nibbleAt, h1, h2, h0]
    rw [hcell _, if_pos (by omega), hnib, hpix0]

/-- Witness for the amended C1 at a concrete input: source byte 0x0F at
shift 0 — its high nibble is 0 and maps to pixel 0, under a palette and a
LUT that send every index to a nonzero color. -/
theorem c1_amended_witness :
    (packedBuf (fun c => c + 1) (fun i => i + 1) (fun _ => 15) 2 1 0)[0]?
      = some (some 0) := by
  have h := c1_amended_zero_nibble_transparent_at_shift_zero
    (fun c => c + 1) (fun i => i + 1) (fun _ => 15) 2 1 (by decide) 0
    (by decide)
  exact h.2.1 (by decide)

/-- Modelled from the spec: `rbTexture` (rb/rb_texture.h, not under src/).
The GPU-side texture object: its dimensions and, when a GPU object with
uploaded contents exists, those contents; `contents = none` models a
released or not-yet-uploaded GPU object. -/
structure rbTexture where
  width : Nat
  height : Nat
  contents : Option (List Cell)
deriving DecidableEq

/-- Modelled from the spec: `rbTexture::abandonTexture` releases the
now-invalid GPU handle without touching CPU data. -/
def rbTexture.abandonTexture (t : rbTexture) : rbTexture :=
  { t with contents := none }

/-- Modelled from the spec: `rbTexture::init(TCR_RGBA, w, h)` allocates a
GPU texture object sized w×h; nothing is uploaded yet. -/
def rbTexture.init (_t : rbTexture) (w h : Nat) : rbTexture :=
  { width := w, height := h, contents := none }

/-- Modelled from the spec: `rbTexture::upload(data, clamp, filter)`
uploads the CPU buffer into the GPU object. -/
def rbTexture.upload (t : rbTexture) (data : List Cell) : rbTexture :=
  { t with contents := some data }

/-- Modelled from the spec: `rbTexture::update(data)` re-uploads the CPU
buffer to the existing GPU object without reallocating it. -/
def rbTexture.updateTex (t : rbTexture) (data : List Cell) : rbTexture :=
  { t with contents := some data }

/-- `TextureResource` (gl_render.cpp:133-165): the name tag of the
`Resource` base class, the GPU texture, the fixed dimensions, the dirty
flag and the owned CPU pixel buffer. -/
structure TextureResource where
  name : String
  m_tex : rbTexture
  m_width : Nat
  m_height : Nat
  m_needUpdate : Bool
  m_data : List Cell
deriving DecidableEq

/-- `TextureResource::generate` (gl_render.cpp:149-153): init the GPU
texture at the resource's dimensions and upload the CPU buffer. -/
def TextureResource.generate (tr : TextureResource) : TextureResource :=
  { tr with m_tex := (tr.m_tex.init tr.m_width tr.m_height).upload tr.m_data }

/-- `TextureResource::update` (gl_render.cpp:155-159): re-upload the CPU
buffer and clear the dirty flag. -/
def TextureResource.update (tr : TextureResource) : TextureResource :=
  { tr with m_tex := tr.m_tex.updateTex tr.m_data, m_needUpdate := false }

/-- `TextureResource::setUpdated` (gl_render.cpp:164): set the dirty
flag. -/
def TextureResource.setUpdated (tr : TextureResource) : TextureResource :=
  { tr with m_needUpdate := true }

/-- Name lookup in a resource store, returning the handle (index) of the
first resource registered under the name. -/
def findByName : List TextureResource → String → Option Nat
  | [], _ => none
  | tr :: rest, nm =>
    if tr.name = nm then some 0 else (findByName rest nm).map (· + 1)

/-- Modelled from the spec: the `ResourceHive` (resource.h, not under
src/) — a registry of resources deduplicating by name; here, as in this
renderer, the only resource kind is `TextureResource`.  A C++ resource
pointer is modelled as the index of the resource in the
registration-ordered store. -/
structure ResourceHive where
  store : List TextureResource
deriving DecidableEq

/-- Modelled from the spec: `ResourceHive::findResourceType<TextureResource>`
returns the existing resource with the given name, or "not found"; it
never creates. -/
def ResourceHive.findResourceType (hv : ResourceHive) (nm : String) :
    Option Nat :=
  findByName hv.store nm

/-- Modelled from the spec: `ResourceHive::addResource` registers a newly
constructed resource; the returned handle of the new resource is the
store index `hv.store.length`. -/
def ResourceHive.addResource (hv : ResourceHive) (tr : TextureResource) :
    ResourceHive :=
  ⟨hv.store ++ [tr]⟩

/-- `glrestype_t` (gl_render.h): the encoding selector of
GL_NewTextureResource.  `RES_INVALID` stands for any value other than the
three recognized encodings; the switch has no default case, so such a
value leaves the pixel buffer null. -/
inductive glrestype_t where
  | RES_FRAMEBUFFER
  | RES_8BIT
  | RES_8BIT_PACKED
  | RES_INVALID
deriving DecidableEq

/-- Outcome of the `switch(restype)` of GL_NewTextureResource: the pixel
buffer (`ok`), a null pixel pointer that the following `if(pixels)` check
catches (`null`), or undefined behavior that never reaches that check
(`crash`). -/
inductive ConvResult where
  | crash
  | null
  | ok (pixels : List Cell)
deriving DecidableEq

/-- The `switch(restype)` of GL_NewTextureResource (gl_render.cpp:243-255)
computing the CPU pixel buffer.  For RES_FRAMEBUFFER the code runs `new
(std::nothrow)` and then `std::memset(pixels, 0, ...)` with **no null
check in between** (gl_render.cpp:246-247), so a failed framebuffer
allocation dereferences the null pointer — undefined behavior (a crash),
not a null return: that path is `crash`.  The two palette conversions
return their possibly-null buffer; any other selector leaves the buffer
null. -/
def convertPixels (restype : glrestype_t) (convAlloc : Bool)
    (CRYToRGB palette8 src : Nat → Nat) (width height : Nat)
    (palshift : Int) : ConvResult :=
  match restype with
  | .RES_FRAMEBUFFER =>
    if convAlloc then
      ConvResult.ok (List.replicate (width * height % 2 ^ 32) (some 0))
    else ConvResult.crash
  | .RES_8BIT =>
    match GL_8bppTo32bpp convAlloc CRYToRGB palette8 src width height with
    | some b => ConvResult.ok b
    | none => ConvResult.null
  | .RES_8BIT_PACKED =>
    match GL_8bppPackedTo32bpp convAlloc CRYToRGB palette8 src width height
        palshift with
    | some b => ConvResult.ok b
    | none => ConvResult.null
  | .RES_INVALID => ConvResult.null

/-- Result of a `GL_NewTextureResource` call that returns: the returned
handle (`none` models a null return), the hive afterwards, and an
instrumentation count of the pixel-conversion, allocation and
registration operations the call performed (0 on a cache hit). -/
structure NewTexResult where
  ret : Option Nat
  graphics : ResourceHive
  opsPerformed : Nat
deriving DecidableEq

/-- `GL_NewTextureResource(name, data, width, height, restype, palshift)`
(gl_render.cpp:233-268).  `convAlloc` models success of the pixel-buffer
allocation inside the conversion (or the direct framebuffer allocation);
`trAlloc` models success of `new (std::nothrow) TextureResource`.  The
overall `none` result models the undefined behavior of the
RES_FRAMEBUFFER path with a failed allocation (memset of the null
pointer, gl_render.cpp:246-247): the call crashes instead of
returning. -/
def GL_NewTextureResource (graphics : ResourceHive) (name : String)
    (src : Nat → Nat) (width height : Nat) (restype : glrestype_t)
    (palshift : Int) (CRYToRGB palette8 : Nat → Nat)
    (convAlloc trAlloc : Bool) : Option NewTexResult :=
  match graphics.findResourceType name with
  | some tr => some { ret := some tr, graphics := graphics, opsPerformed := 0 }
  | none =>
    match convertPixels restype convAlloc CRYToRGB palette8 src width height
        palshift with
    | .crash => none
    | .null =>
      some { ret := none, graphics := graphics,
             opsPerformed := if restype = .RES_INVALID then 0 else 1 }
    | .ok pixels =>
      if trAlloc then
        let tr : TextureResource :=
          TextureResource.generate
            { name := name,
              m_tex := { width := 0, height := 0, contents := none },
              m_width := width, m_height := height, m_needUpdate := false,
              m_data := pixels }
        some { ret := some graphics.store.length,
               graphics := graphics.addResource tr, opsPerformed := 3 }
      else
        some { ret := none, graphics := graphics, opsPerformed := 2 }

/-- The VALLOCATION(graphics) invalidation handler (gl_render.cpp:177-183):
for each TextureResource in the hive, abandon the GPU texture, then
regenerate it from the CPU buffer.  `forEachOfType` is modelled from the
spec: it visits every live resource exactly once. -/
def VALLOCATION_graphics (hv : ResourceHive) : ResourceHive :=
  ⟨hv.store.map fun tr =>
    TextureResource.generate { tr with m_tex := tr.m_tex.abandonTexture }⟩

/-- `GL_TextureResourceSetUpdated` (gl_render.cpp:301-304): mark the
resource as needing its GL texture updated. -/
def GL_TextureResourceSetUpdated (tr : TextureResource) : TextureResource :=
  tr.setUpdated

/-- `GL_UpdateTextureResource` (gl_render.cpp:282-288): call `update()`
only if the resource is dirty.  The Bool records whether a GPU upload
(`update()`) was performed. -/
def GL_UpdateTextureResource (tr : TextureResource) :
    TextureResource × Bool :=
  if tr.m_needUpdate then (tr.update, true) else (tr, false)

/-- The fill loop of GL_ClearTextureResource (gl_render.cpp:332-333):
`buffer[i] = clearColor` for every `i` below the loop bound. -/
def clearFill (clearColor : Nat) : Nat → List Cell → List Cell
  | 0, buf => buf
  | i + 1, buf => (clearFill clearColor i buf).set i (some clearColor)

/-- `GL_ClearTextureResource(resource, clearColor)` (gl_render.cpp:325-336),
acting on the hive through a handle (`none` models a null pointer): if the
handle is null nothing happens; otherwise the resource's CPU buffer cells
below `tex.getWidth() * tex.getHeight()` (unsigned product) are set to the
clear color and the resource is marked dirty.  (A non-null handle naming
no live resource would be an invalid pointer in C; it is modelled as a
no-op and is unreachable for handles obtained from the hive.) -/
def GL_ClearTextureResource (hv : ResourceHive) (resource : Option Nat)
    (clearColor : Nat) : ResourceHive :=
  match resource with
  | none => hv
  | some r =>
    match hv.store[r]? with
    | none => hv
    | some rez =>
      let rez' := { rez with
        m_data := clearFill clearColor
          (rez.m_tex.width * rez.m_tex.height % 2 ^ 32) rez.m_data }
      ⟨hv.store.set r rez'.setUpdated⟩

theorem findByName_append_of_none (l : List TextureResource)
    (tr : TextureResource) (nm : String) (hl : findByName l nm = none)
    (hn : tr.name = nm) :
    findByName (l ++ [tr]) nm = some l.length := by
  induction l with
  | nil => simp [findByName, hn]
  | cons a rest ih =>
    simp only [findByName, List.cons_append] at hl ⊢
    by_cases h : a.name = nm
    · rw [if_pos h] at hl
      exact absurd hl (by simp)
    · rw [if_neg h] at hl ⊢
      have hrest : findByName rest nm = none := by
        cases hx : findByName rest nm with
        | none => rfl
        | some j => rw [hx] at hl; exact absurd hl (by simp)
      simp [ih hrest]

/-- C2 (code bug): the claim's clean-failure guarantee does not hold for
the RES_FRAMEBUFFER path.  At the failing input — empty hive (so the name
is not cached), selector RES_FRAMEBUFFER, pixel-buffer allocation failing
— the code does not return null with the hive unchanged:
gl_render.cpp:247 memsets the null pointer before the `if(pixels)` check,
which is undefined behavior (a crash), modelled as the `none` outcome
(first conjunct).  The other failure paths do behave as claimed, e.g. a
failed Encoding A conversion allocation returns null with the hive
unchanged (second conjunct). -/
theorem c2_framebuffer_alloc_failure_crashes :
    GL_NewTextureResource ⟨[]⟩ ("framebuffer") (fun _ => 0) 160 180
        .RES_FRAMEBUFFER 0 (fun c => c) (fun i => i) false true = none
    ∧ (GL_NewTextureResource ⟨[]⟩ ("BARONATK") (fun _ => 0) 2 2
        .RES_8BIT 0 (fun c => c) (fun i => i) false true)
      = some { ret := none, graphics := ⟨[]⟩, opsPerformed := 1 } :=
  ⟨rfl, rfl⟩

theorem GL_NewTextureResource_cache_hit (graphics : ResourceHive)
    (name : String) (src : Nat → Nat) (w h : Nat) (rt : glrestype_t)
    (ps : Int) (CRY pal : Nat → Nat) (ca ta : Bool) (j : Nat)
    (hhit : graphics.findResourceType name = some j) :
    GL_NewTextureResource graphics name src w h rt ps CRY pal ca ta
      = some { ret := some j, graphics := graphics, opsPerformed := 0 } := by
  unfold GL_NewTextureResource
  rw [hhit]

theorem GL_NewTextureResource_find_after (graphics : ResourceHive)
    (name : String) (src : Nat → Nat) (w h : Nat) (rt : glrestype_t)
    (ps : Int) (CRY pal : Nat → Nat) (ca ta : Bool) (res : NewTexResult)
    (idx : Nat)
    (hcall : GL_NewTextureResource graphics name src w h rt ps CRY pal ca
        ta = some res)
    (hret : res.ret = some idx) :
    res.graphics.findResourceType name = some idx := by
  unfold GL_NewTextureResource at hcall
  split at hcall
  · rename_i j hcache
    have hres := Option.some.inj hcall
    subst hres
    have hj : j = idx := by simpa using hret
    subst hj
    exact hcache
  · rename_i hcache
    split at hcall
    · exact absurd hcall (by simp)
    · have hres := Option.some.inj hcall
      subst hres
      exact absurd hret (by simp)
    · rename_i pixels hconv
      cases ta with
      | false =>
        have hres := Option.some.inj hcall
        subst hres
        exact absurd hret (by simp)
      | true =>
        have hres := Option.some.inj hcall
        subst hres
        have hidx : graphics.store.length = idx := by simpa using hret
        have hn : (TextureResource.generate
            { name := name,
              m_tex := { width := 0, height := 0, contents := none },
              m_width := w, m_height := h, m_needUpdate := false,
              m_data := pixels }).name = name := rfl
        have hfind := findByName_append_of_none graphics.store _ name
          hcache hn
        show findByName (graphics.store ++ [TextureResource.generate
          { name := name,
            m_tex := { width := 0, height := 0, contents := none },
            m_width := w, m_height := h, m_needUpdate := false,
            m_data := pixels }]) name = some idx
        rw [hfind, hidx]

/-- C4: if a call to GL_NewTextureResource returns a (non-null) handle,
then a second call with the same name — whatever the other arguments —
returns the identical handle, leaves the hive unchanged and performs no
pixel conversion, no allocation and no registration. -/
theorem c4_cache_identity_second_call (graphics : ResourceHive)
    (name : String) (src1 src2 : Nat → Nat) (w1 h1 w2 h2 : Nat)
    (rt1 rt2 : glrestype_t) (ps1 ps2 : Int)
    (CRY1 pal1 CRY2 pal2 : Nat → Nat) (ca1 ta1 ca2 ta2 : Bool)
    (res : NewTexResult) (idx : Nat)
    (hfirst : GL_NewTextureResource graphics name src1 w1 h1 rt1 ps1 CRY1
        pal1 ca1 ta1 = some res)
    (hret : res.ret = some idx) :
    GL_NewTextureResource res.graphics name src2 w2 h2 rt2 ps2 CRY2 pal2
        ca2 ta2
      = some { ret := some idx, graphics := res.graphics,
               opsPerformed := 0 } :=
  GL_NewTextureResource_cache_hit res.graphics name src2 w2 h2 rt2 ps2
    CRY2 pal2 ca2 ta2 idx
    (GL_NewTextureResource_find_after graphics name src1 w1 h1 rt1 ps1 CRY1
      pal1 ca1 ta1 res idx hfirst hret)

/-- The resource the concrete first call of the C4 witness creates: a
blank 1×1 framebuffer resource registered under the name "fb". -/
def sampleFbResource : TextureResource :=
  { name := "fb",
    m_tex := { width := 1, height := 1, contents := some [some 0] },
    m_width := 1, m_height := 1, m_needUpdate := false,
    m_data := [some 0] }

/-- Witness for C4: after creating a blank 1×1 framebuffer resource, a
second call with the same name (and entirely different arguments) returns
the same handle 0, the unchanged hive, and performs no work. -/
theorem c4_witness :
    GL_NewTextureResource ⟨[sampleFbResource]⟩ ("fb") (fun _ => 1) 2 2
        .RES_8BIT 1 (fun c => c + 1) (fun i => i + 1) false false
      = some { ret := some 0, graphics := ⟨[sampleFbResource]⟩,
               opsPerformed := 0 } :=
  c4_cache_identity_second_call ⟨[]⟩ ("fb") (fun _ => 0) (fun _ => 1)
    1 1 2 2 .RES_FRAMEBUFFER .RES_8BIT 0 1 (fun c => c) (fun i => i)
    (fun c => c + 1) (fun i => i + 1) true true false false
    { ret := some 0, graphics := ⟨[sampleFbResource]⟩, opsPerformed := 3 }
    0 (by decide) (by rfl)

/-- C5: the invalidation handler (abandon then generate, applied once to
each TextureResource in the hive) leaves every resource's CPU buffer
unchanged, and afterwards its GPU texture's contents equal that CPU
buffer. -/
theorem c5_invalidation_round_trip (hv : ResourceHive) (i : Nat)
    (tr : TextureResource) (hget : hv.store[i]? = some tr) :
    ∃ tr', (VALLOCATION_graphics hv).store[i]? = some tr'
      ∧ tr'.m_data = tr.m_data
      ∧ tr'.m_tex.contents = some tr.m_data := by
  refine ⟨TextureResource.generate
    { tr with m_tex := tr.m_tex.abandonTexture }, ?_, rfl, rfl⟩
  show (hv.store.map _)[i]? = _
  rw [List.getElem?_map, hget]
  rfl

/-- A sample live resource whose GPU texture has been lost (contents gone)
but whose CPU buffer holds the pixel 7; used to witness C5 concretely. -/
def sampleLostResource : TextureResource :=
  { name := "fb",
    m_tex := { width := 1, height := 1, contents := none },
    m_width := 1, m_height := 1, m_needUpdate := false,
    m_data := [some 7] }

/-- Witness for C5 at a concrete one-resource hive whose GPU texture has
been lost: after the handler, the CPU buffer survives and the GPU
contents equal it. -/
theorem c5_witness :
    ∃ tr', (VALLOCATION_graphics ⟨[sampleLostResource]⟩).store[0]?
        = some tr'
      ∧ tr'.m_data = [some 7]
      ∧ tr'.m_tex.contents = some [some 7] :=
  c5_invalidation_round_trip ⟨[sampleLostResource]⟩ 0 sampleLostResource
    (by rfl)

/-- C6: after marking a resource dirty and then syncing it, the dirty
flag is false, and a further sync performs no GPU upload and changes no
state (until the resource is marked dirty again). -/
theorem c6_dirty_sync_idempotent (tr : TextureResource) :
    (GL_UpdateTextureResource (GL_TextureResourceSetUpdated tr)).1.m_needUpdate
        = false
    ∧ GL_UpdateTextureResource
        (GL_UpdateTextureResource (GL_TextureResourceSetUpdated tr)).1
      = ((GL_UpdateTextureResource (GL_TextureResourceSetUpdated tr)).1,
          false) :=
  ⟨rfl, rfl⟩

/-- C10: calling GL_ClearTextureResource with a null resource handle
changes no state: the hive — every resource's pixel buffer and dirty flag
included — is returned unchanged. -/
theorem c10_clear_null_resource_noop (hv : ResourceHive)
    (clearColor : Nat) :
    GL_ClearTextureResource hv none clearColor = hv :=
  rfl

/-- `drawcommand_t` (gl_render.cpp:343-349): the source resource (a
handle into the hive), the destination origin (in the 320×224 logical
space) and the size.  The intrusive `BDListItem` links become positions
in a Lean list. -/
structure drawcommand_t where
  res : Nat
  x : Int
  y : Int
  w : Nat
  h : Nat
deriving DecidableEq

/-- The mutable state touched by the draw-command layer: the graphics
resource hive and the two queues `drawCommands` and `lateDrawCommands`
(gl_render.cpp:351-352).  `BDList` is modelled from the spec: `insert`
appends at the tail (commands are kept in enqueue order), `first` is the
head of the list. -/
structure GLState where
  graphics : ResourceHive
  drawCommands : List drawcommand_t
  lateDrawCommands : List drawcommand_t
deriving DecidableEq

/-- The `if(dc->res->needsUpdate()) dc->res->update();` tail of the
enqueue functions (gl_render.cpp:373-374 and 395-396), acting through the
handle.  (A handle naming no live resource would be an invalid pointer in
C; modelled as a no-op, unreachable for hive handles.) -/
def updateIfNeeded (hv : ResourceHive) (r : Nat) : ResourceHive :=
  match hv.store[r]? with
  | some tr => if tr.m_needUpdate then ⟨hv.store.set r tr.update⟩ else hv
  | none => hv

/-- `GL_AddDrawCommand(res, x, y, w, h)` (gl_render.cpp:358-375): a null
resource is ignored; otherwise a command is appended to the normal queue
and the resource is synced if dirty. -/
def GL_AddDrawCommand (st : GLState) (res : Option Nat) (x y : Int)
    (w h : Nat) : GLState :=
  match res with
  | none => st
  | some r =>
    { st with
      drawCommands := st.drawCommands ++ [⟨r, x, y, w, h⟩],
      graphics := updateIfNeeded st.graphics r }

/-- `GL_AddLateDrawCommand(res, x, y, w, h)` (gl_render.cpp:380-397):
like `GL_AddDrawCommand` but appending to the late queue. -/
def GL_AddLateDrawCommand (st : GLState) (res : Option Nat) (x y : Int)
    (w h : Nat) : GLState :=
  match res with
  | none => st
  | some r =>
    { st with
      lateDrawCommands := st.lateDrawCommands ++ [⟨r, x, y, w, h⟩],
      graphics := updateIfNeeded st.graphics r }

/-- The fold-in loop of GL_executeDrawCommands (gl_render.cpp:415-419):
while the late queue is non-empty, remove its first command and insert it
at the tail of the normal queue.  Returns both queues afterwards. -/
def foldLateLoop : List drawcommand_t → List drawcommand_t →
    List drawcommand_t × List drawcommand_t
  | normalQ, [] => (normalQ, [])
  | normalQ, c :: rest => foldLateLoop (normalQ ++ [c]) rest

/-- `GL_executeDrawCommands` (gl_render.cpp:409-426): fold the late queue
into the normal queue, then call `GL_drawGameRect` (an external GL call)
once per command in list order; that call sequence is returned as the
execution trace. -/
def GL_executeDrawCommands (st : GLState) : GLState × List drawcommand_t :=
  let q := foldLateLoop st.drawCommands st.lateDrawCommands
  ({ st with drawCommands := q.1, lateDrawCommands := q.2 }, q.1)

/-- The loop of `GL_clearDrawCommands` (gl_render.cpp:399-407): remove
and free the first command of the normal queue while it is non-empty. -/
def clearLoop : List drawcommand_t → List drawcommand_t
  | [] => []
  | _ :: rest => clearLoop rest

/-- `GL_clearDrawCommands` (gl_render.cpp:399-407). -/
def GL_clearDrawCommands (st : GLState) : GLState :=
  { st with drawCommands := clearLoop st.drawCommands }

/-- `GL_RenderFrame` (gl_render.cpp:561-568): clear the color target
(external GL), execute the queued draw commands, clear the queue, present
(external).  Returns the new state and the executed command trace. -/
def GL_RenderFrame (st : GLState) : GLState × List drawcommand_t :=
  let r := GL_executeDrawCommands st
  (GL_clearDrawCommands r.1, r.2)

/-- One enqueue call made by game code during a frame: normal or late,
with the resource handle (possibly null) and the rectangle. -/
inductive EnqueueCall where
  | norm (res : Option Nat) (x y : Int) (w h : Nat)
  | late (res : Option Nat) (x y : Int) (w h : Nat)
deriving DecidableEq

/-- Run a sequence of enqueue calls against the state. -/
def runEnqueues : GLState → List EnqueueCall → GLState
  | st, [] => st
  | st, .norm r x y w h :: rest =>
    runEnqueues (GL_AddDrawCommand st r x y w h) rest
  | st, .late r x y w h :: rest =>
    runEnqueues (GL_AddLateDrawCommand st r x y w h) rest

/-- The commands a sequence of enqueue calls adds to the normal queue, in
call order (null-resource calls add nothing). -/
def normCommands : List EnqueueCall → List drawcommand_t
  | [] => []
  | .norm (some r) x y w h :: rest => ⟨r, x, y, w, h⟩ :: normCommands rest
  | _ :: rest => normCommands rest

/-- The commands a sequence of enqueue calls adds to the late queue, in
call order (null-resource calls add nothing). -/
def lateCommands : List EnqueueCall → List drawcommand_t
  | [] => []
  | .late (some r) x y w h :: rest => ⟨r, x, y, w, h⟩ :: lateCommands rest
  | _ :: rest => lateCommands rest

theorem foldLateLoop_eq (normalQ lateQ : List drawcommand_t) :
    foldLateLoop normalQ lateQ = (normalQ ++ lateQ, []) := by
  induction lateQ generalizing normalQ with
  | nil => simp [foldLateLoop]
  | cons c rest ih => simp [foldLateLoop, ih]

theorem clearLoop_eq_nil (l : List drawcommand_t) : clearLoop l = [] := by
  induction l with
  | nil => rfl
  | cons c rest ih => exact ih

theorem runEnqueues_queues (st : GLState) (calls : List EnqueueCall) :
    (runEnqueues st calls).drawCommands
        = st.drawCommands ++ normCommands calls
    ∧ (runEnqueues st calls).lateDrawCommands
        = st.lateDrawCommands ++ lateCommands calls := by
  induction calls generalizing st with
  | nil => simp [runEnqueues, normCommands, lateCommands]
  | cons c rest ih =>
    cases c with
    | norm r x y w h =>
      cases r with
      | none =>
        simpa [runEnqueues, GL_AddDrawCommand, normCommands, lateCommands]
          using ih st
      | some rr =>
        have h2 := ih (GL_AddDrawCommand st (some rr) x y w h)
        simp only [runEnqueues, normCommands, lateCommands]
        rw [h2.1, h2.2]
        simp [GL_AddDrawCommand]
    | late r x y w h =>
      cases r with
      | none =>
        simpa [runEnqueues, GL_AddLateDrawCommand, normCommands,
          lateCommands] using ih st
      | some rr =>
        have h2 := ih (GL_AddLateDrawCommand st (some rr) x y w h)
        simp only [runEnqueues, normCommands, lateCommands]
        rw [h2.1, h2.2]
        simp [GL_AddLateDrawCommand]

/-- C3: starting from empty queues, for every sequence of enqueue calls
within one frame, the flush executes exactly the enqueued commands, in
the order: all normally-enqueued commands in enqueue order, then all
late-enqueued commands in enqueue order. -/
theorem c3_flush_order_normal_then_late (st : GLState)
    (calls : List EnqueueCall) (hnorm : st.drawCommands = [])
    (hlate : st.lateDrawCommands = []) :
    (GL_executeDrawCommands (runEnqueues st calls)).2
      = normCommands calls ++ lateCommands calls := by
  have h := runEnqueues_queues st calls
  show (foldLateLoop (runEnqueues st calls).drawCommands
      (runEnqueues st calls).lateDrawCommands).1 = _
  rw [h.1, h.2, hnorm, hlate, List.nil_append, List.nil_append,
    foldLateLoop_eq]

/-- Witness for C3: the spec's example — commands A (res 1), B (res 2)
enqueued normally and C (res 3), D (res 4) enqueued late, in that order —
executes as A, B, C, D. -/
theorem c3_witness :
    (GL_executeDrawCommands (runEnqueues ⟨⟨[]⟩, [], []⟩
        [.norm (some 1) 0 0 8 8, .late (some 3) 0 0 8 8,
          .norm (some 2) 0 0 8 8, .late (some 4) 0 0 8 8])).2
      = [⟨1, 0, 0, 8, 8⟩, ⟨2, 0, 0, 8, 8⟩, ⟨3, 0, 0, 8, 8⟩,
          ⟨4, 0, 0, 8, 8⟩] := by
  rw [c3_flush_order_normal_then_late ⟨⟨[]⟩, [], []⟩
    [.norm (some 1) 0 0 8 8, .late (some 3) 0 0 8 8,
      .norm (some 2) 0 0 8 8, .late (some 4) 0 0 8 8] rfl rfl]
  rfl

/-- C8: after GL_RenderFrame returns, both the normal and the late
draw-command queues are empty; and if no command was enqueued during the
frame, the flush executes no draw command. -/
theorem c8_render_frame_drains_queues (st : GLState) :
    (GL_RenderFrame st).1.drawCommands = []
    ∧ (GL_RenderFrame st).1.lateDrawCommands = []
    ∧ (st.drawCommands = [] → st.lateDrawCommands = [] →
        (GL_RenderFrame st).2 = []) := by
  refine ⟨clearLoop_eq_nil _, ?_, ?_⟩
  · show (foldLateLoop st.drawCommands st.lateDrawCommands).2 = []
    rw [foldLateLoop_eq]
  · intro h1 h2
    show (foldLateLoop st.drawCommands st.lateDrawCommands).1 = []
    rw [h1, h2, foldLateLoop_eq]
    rfl

/-- Witness for C8 at a concrete state with one normal and one late
pending command: after the frame both queues are empty; and from a state
with no enqueued command the flush trace is empty. -/
theorem c8_witness :
    (GL_RenderFrame ⟨⟨[]⟩, [⟨1, 0, 0, 8, 8⟩], [⟨2, 0, 0, 8, 8⟩]⟩).1.drawCommands
        = []
    ∧ (GL_RenderFrame
        ⟨⟨[]⟩, [⟨1, 0, 0, 8, 8⟩], [⟨2, 0, 0, 8, 8⟩]⟩).1.lateDrawCommands
        = []
    ∧ (GL_RenderFrame ⟨⟨[]⟩, [], []⟩).2 = [] :=
  ⟨(c8_render_frame_drains_queues
      ⟨⟨[]⟩, [⟨1, 0, 0, 8, 8⟩], [⟨2, 0, 0, 8, 8⟩]⟩).1,
    (c8_render_frame_drains_queues
      ⟨⟨[]⟩, [⟨1, 0, 0, 8, 8⟩], [⟨2, 0, 0, 8, 8⟩]⟩).2.1,
    (c8_render_frame_drains_queues ⟨⟨[]⟩, [], []⟩).2.2 rfl rfl⟩

end GLRender
